import Mathlib

/-!
Verification of the nuvo51icp workflow controller (src/nuvo51icp/main.c).

The development shallowly embeds `main` as a pure function from an input
record (command-line flags, file contents, and the responses the ICP
transport or the user would give) to the ordered list of transport calls
the run performs together with the process exit code.  Machine integers
are modelled as Int or Nat with explicit truncated division and modulus
where the C code relies on them.
-/

set_option maxRecDepth 4000

/-! ## Layout constants -/

/-- Device id constant, src/nuvo51icp/main.c line 40. -/
def N76E003_DEVID : Nat := 0x3650

/-- Modelled from the spec: `FLASH_SIZE` comes from the missing config.h;
the spec fixes it as 18432 bytes (scenario in section 8). -/
def FLASH_SIZE : Nat := 18432

/-- Modelled from the spec: `LDROM_MAX_SIZE` comes from the missing config.h;
the spec bounds `loaderSizeKb` by 1..=8 KiB, so the maximum is 8 KiB. -/
def LDROM_MAX_SIZE : Nat := 8192

/-- Modelled from the spec: `APROM_FLASH_ADDR` comes from the missing
config.h; the spec places the application region at base address 0. -/
def APROM_FLASH_ADDR : Int := 0

/-- Modelled from the spec: `CFG_FLASH_ADDR` comes from the missing
config.h; the spec only says it is a fixed flash address outside the data
regions, so it is represented by a fixed tag value above the flash. -/
def CFG_FLASH_ADDR : Int := 196608

/-- Modelled from the spec: `CFG_FLASH_LEN` comes from the missing config.h;
the blank configuration array in main.c line 72 has five initializers. -/
def CFG_FLASH_LEN : Nat := 5

/-! ## Configuration bytes and device identity -/

/-- Modelled from the spec: the bit-packed `config_flags` record of the
missing config.h, reduced to the three fields main.c uses.  `LOCK` is one
bit (0 = locked), `CBS` one bit (0 = boot from LDROM), `LDS` three bits. -/
structure config_flags where
  LOCK : Nat
  CBS : Nat
  LDS : Nat
deriving DecidableEq, Repr

/-- main.c lines 72-76: the blank configuration is five 0xFF bytes, so every
bit-field reads as all ones: LOCK = 1, CBS = 1, LDS = 7. -/
def get_default_config : config_flags :=
  { LOCK := 1, CBS := 1, LDS := 7 }

/-- main.c lines 42-47: the identity record read from the device. -/
structure device_info where
  devid : Nat
  cid : Nat
  uid : List Nat
  ucid : List Nat
deriving DecidableEq, Repr

/-! ## Program planner (main.c lines 237-241)

`ldrom_program_size` is a C `int`, so `(ldrom_program_size - 1) / 1024`
is truncated (toward-zero) signed division, embedded as `Int.tdiv`.
The store into the `uint8_t` local is the value modulo 256.  In C,
`& 0x7` on a two-complement `int` equals the value modulo 8
(`Int.emod`, written `%`); here the argument is in [-1, 6].
-/

/-- main.c line 238: `uint8_t chosen_ldrom_sz_kb = ((ldrom_program_size - 1) / 1024) + 1;` -/
def chosen_ldrom_sz_kb (ldrom_program_size : Int) : Int :=
  ((ldrom_program_size - 1).tdiv 1024 + 1) % 256

/-- main.c line 239: `chosen_ldrom_sz = chosen_ldrom_sz_kb * 1024;` -/
def chosen_ldrom_sz (ldrom_program_size : Int) : Int :=
  chosen_ldrom_sz_kb ldrom_program_size * 1024

/-- main.c line 241: `write_config.LDS = ((7 - chosen_ldrom_sz_kb) & 0x7);` -/
def planned_LDS (ldrom_program_size : Int) : Nat :=
  ((7 - chosen_ldrom_sz_kb ldrom_program_size) % 8).toNat

/-- main.c lines 234, 240-241: the configuration written when an LDROM image
is supplied, starting from the blank default. -/
def planned_write_config (ldrom_program_size : Int) : config_flags :=
  { get_default_config with CBS := 0, LDS := planned_LDS ldrom_program_size }

/-! ## Inputs of one invocation

Everything `main` consumes: the parsed command-line flags (argument
parsing itself is the excluded front end), whether the `fopen` calls
succeed, the byte contents of the supplied files, and the responses the
external collaborators give (transport initialization result, the two
possible identity reads, the confirmation character typed by the user, the
configuration bytes read from the device, the full-flash read-back, and
whether the `fwrite` of the dump succeeds).
-/

structure Inputs where
  read_aprom : Bool
  write_aprom : Bool
  write_ldrom : Bool
  dump_config : Bool
  lock_chip : Bool
  aprom_open_ok : Bool
  ldrom_open_ok : Bool
  apromFile : List Nat
  ldromFile : List Nat
  icpInitResult : Int
  dev1 : device_info
  dev2 : device_info
  confirmChar : Nat
  current_config : config_flags
  readback : List Nat
  fwrite_ok : Bool
deriving Repr

/-- The observable calls a run makes, in order.  `readDeviceInfo` stands for
the four identity reads of `get_device_info` (main.c lines 49-56);
`promptMassErase` is the stderr prompt plus `getchar` (lines 196-198);
`msgAttemptErase` the confirmation-only message (line 200). -/
inductive Event where
  | icpInit
  | readDeviceInfo (d : device_info)
  | reentry (holdUs releaseUs retries : Nat)
  | promptMassErase
  | msgAttemptErase
  | printDeviceInfo (d : device_info)
  | printConfig (c : config_flags)
  | readFlash (addr : Int) (len : Int)
  | writeFlash (addr : Int) (data : List Nat)
  | writeCfg (c : config_flags)
  | massErase
  | dumpConfig
  | icpExit
  | pgmDeinit
deriving DecidableEq, Repr

/-- main.c lines 185-190: the identity in effect after bootstrap; if the
first read reports the locked sentinel cid 0xFF, a re-entry is performed
and the identity is re-read. -/
def effective_devinfo (i : Inputs) : device_info :=
  if i.dev1.cid = 0xFF then i.dev2 else i.dev1

/-- main.c line 237: `ldrom_program_size = fread(ldrom_data, 1, LDROM_MAX_SIZE, file_ldrom);`
`fread` returns the supplied length capped at `LDROM_MAX_SIZE`. -/
def ldrom_program_size (i : Inputs) : Nat :=
  min i.ldromFile.length LDROM_MAX_SIZE

/-- main.c lines 232, 239: the planned loader region size in bytes; stays 0
when no loader image is supplied. -/
def chosen_sz (i : Inputs) : Int :=
  if i.write_ldrom = true then chosen_ldrom_sz (ldrom_program_size i : Int) else 0

/-- main.c line 251: `int aprom_size = FLASH_SIZE - chosen_ldrom_sz;` -/
def aprom_size (i : Inputs) : Int :=
  (FLASH_SIZE : Int) - chosen_sz i

/-- main.c line 252: `aprom_program_size = fread(write_data, 1, aprom_size, file);` -/
def aprom_program_size (i : Inputs) : Nat :=
  min i.apromFile.length (aprom_size i).toNat

/-- main.c lines 119, 237: the LDROM buffer after `memset(0xff)` and, when a
loader image is supplied, the `fread` of at most `LDROM_MAX_SIZE` bytes. -/
def ldrom_data_buf (i : Inputs) : List Nat :=
  if i.write_ldrom = true then
    i.ldromFile.take (ldrom_program_size i)
      ++ List.replicate (LDROM_MAX_SIZE - ldrom_program_size i) 0xFF
  else List.replicate LDROM_MAX_SIZE 0xFF

/-- main.c lines 118, 252: the APROM write buffer after `memset(0xff)` and,
when an application image is supplied, the `fread` of at most `aprom_size`
bytes. -/
def write_data_buf (i : Inputs) : List Nat :=
  if i.write_aprom = true then
    i.apromFile.take (aprom_program_size i)
      ++ List.replicate (FLASH_SIZE - aprom_program_size i) 0xFF
  else List.replicate FLASH_SIZE 0xFF

/-- main.c line 265: `memcpy(&write_data[FLASH_SIZE - chosen_ldrom_sz], ldrom_data, chosen_ldrom_sz);`
the expected full-flash image compared against the read-back. -/
def verify_expected (i : Inputs) : List Nat :=
  (write_data_buf i).take (FLASH_SIZE - (chosen_sz i).toNat)
    ++ (ldrom_data_buf i).take (chosen_sz i).toNat

/-- main.c lines 117, 261: the read buffer after `memset(0xff)` and the
full-flash read; the transport response is normalized to `FLASH_SIZE`
bytes, missing bytes keeping the memset filler. -/
def read_data_buf (i : Inputs) : List Nat :=
  i.readback.take FLASH_SIZE
    ++ List.replicate (FLASH_SIZE - i.readback.length) 0xFF

/-- main.c lines 232-289: programming, verification, locking and the pure
read path, entered with the trace `pre` accumulated so far. -/
def run3 (i : Inputs) (pre : List Event) : List Event × Int :=
  let ldEvs : List Event :=
    if i.write_ldrom = true then
      [Event.writeCfg (planned_write_config (ldrom_program_size i : Int)),
       Event.writeFlash ((FLASH_SIZE : Int) - chosen_sz i)
         (i.ldromFile.take (ldrom_program_size i))]
    else []
  let apEvs : List Event :=
    if i.write_aprom = true then
      [Event.writeFlash APROM_FLASH_ADDR (i.apromFile.take (aprom_program_size i))]
    else []
  let wc : config_flags :=
    if i.write_ldrom = true then planned_write_config (ldrom_program_size i : Int)
    else get_default_config
  if i.write_aprom = true ∨ i.write_ldrom = true then
    if verify_expected i = read_data_buf i then
      (pre ++ ldEvs ++ apEvs
         ++ [Event.readFlash APROM_FLASH_ADDR (FLASH_SIZE : Int)]
         ++ (if i.lock_chip = true then [Event.writeCfg { wc with LOCK := 0 }] else [])
         ++ [Event.dumpConfig, Event.icpExit, Event.pgmDeinit], 0)
    else
      (pre ++ ldEvs ++ apEvs
         ++ [Event.readFlash APROM_FLASH_ADDR (FLASH_SIZE : Int),
             Event.dumpConfig, Event.icpExit, Event.pgmDeinit], 1)
  else
    (pre ++ [Event.dumpConfig, Event.readFlash APROM_FLASH_ADDR (FLASH_SIZE : Int),
             Event.icpExit, Event.pgmDeinit],
     if i.fwrite_ok = true then 0 else 1)

/-- main.c lines 185-230: bootstrap identity reads, the device-model check
with the mass-erase prompt, the configuration read and lock check, the
erase step and the dump-config early exit. -/
def run2 (i : Inputs) : List Event × Int :=
  let d := effective_devinfo i
  let bootEvs : List Event :=
    if i.dev1.cid = 0xFF then
      [Event.readDeviceInfo i.dev1, Event.reentry 5000 1000 10,
       Event.readDeviceInfo i.dev2]
    else [Event.readDeviceInfo i.dev1]
  if d.devid ≠ N76E003_DEVID
      ∧ ¬((i.write_ldrom = true ∨ i.write_aprom = true) ∧ d.cid = 0xFF) then
    (Event.icpInit :: bootEvs
       ++ [Event.printDeviceInfo d, Event.icpExit, Event.pgmDeinit], 1)
  else
    let promptEvs : List Event :=
      if d.devid ≠ N76E003_DEVID then
        Event.promptMassErase ::
          (if i.confirmChar = 121 ∨ i.confirmChar = 89 then [Event.msgAttemptErase]
           else [])
      else []
    let cfg := i.current_config
    if cfg.LOCK = 0 ∧ i.write_aprom = false ∧ i.write_ldrom = false then
      (Event.icpInit :: bootEvs ++ promptEvs
         ++ [Event.readFlash CFG_FLASH_ADDR (CFG_FLASH_LEN : Int),
             Event.printDeviceInfo d, Event.printConfig cfg,
             Event.icpExit, Event.pgmDeinit], 1)
    else
      let eraseEvs : List Event :=
        if i.write_aprom = true ∨ i.write_ldrom = true then
          Event.massErase ::
            (if cfg.LOCK = 0 ∨ d.cid = 0xFF then [Event.reentry 5000 1000 10] else [])
        else []
      let pre : List Event :=
        Event.icpInit :: bootEvs ++ promptEvs
          ++ [Event.readFlash CFG_FLASH_ADDR (CFG_FLASH_LEN : Int)]
          ++ eraseEvs
          ++ [Event.printDeviceInfo d, Event.printConfig cfg]
      if i.dump_config = true then (pre ++ [Event.icpExit, Event.pgmDeinit], 0)
      else run3 i pre

/-- main.c lines 105-300: the whole invocation.  The four `usage()` exits
(conflicting flags, no action, failed file opens) terminate the process
with status 1 before any transport call; a failed `N51ICP_init` jumps to
the `err` label, which returns 1 without running `N51ICP_exit` or
`N51PGM_deinit`. -/
def run (i : Inputs) : List Event × Int :=
  if i.read_aprom = true ∧ i.write_aprom = true then ([], 1)
  else if i.read_aprom = false ∧ i.write_aprom = false ∧ i.dump_config = false then
    ([], 1)
  else if i.dump_config = false ∧ (i.read_aprom = true ∨ i.write_aprom = true)
      ∧ i.aprom_open_ok = false then ([], 1)
  else if i.dump_config = false ∧ i.write_ldrom = true ∧ i.ldrom_open_ok = false then
    ([], 1)
  else if i.icpInitResult ≠ 0 then ([Event.icpInit], 1)
  else run2 i

/-! ## Trace predicates -/

/-- A transport write of the configuration with the lock bit asserted
(main.c lines 273-275). -/
def lockWriteB (e : Event) : Bool :=
  match e with
  | Event.writeCfg c => c.LOCK == 0
  | _ => false

/-- Any flash-mutating transport call: mass erase or a write. -/
def mutationB (e : Event) : Bool :=
  match e with
  | Event.massErase => true
  | Event.writeFlash _ _ => true
  | Event.writeCfg _ => true
  | _ => false

/-- The trace ends with `N51ICP_exit(); N51PGM_deinit(0);` (the shared
cleanup at main.c lines 291-297). -/
def endsWithShutdown (tr : List Event) : Bool :=
  match tr.reverse with
  | d :: e :: _ => d == Event.pgmDeinit && e == Event.icpExit
  | _ => false

/-- The trace ends with the verify read, a lock write, the final config
dump and the shutdown, in that order (main.c lines 261-277, 291-293). -/
def lockAfterVerifyTail (tr : List Event) : Bool :=
  match tr.reverse with
  | d :: e :: f :: g :: h :: _ =>
    d == Event.pgmDeinit && e == Event.icpExit && f == Event.dumpConfig
      && (match g with | Event.writeCfg c => c.LOCK == 0 | _ => false)
      && h == Event.readFlash APROM_FLASH_ADDR (FLASH_SIZE : Int)
  | _ => false

/-! ## Concrete inputs used in the closed theorems -/

/-- A healthy, unlocked N76E003 identity. -/
def okDev : device_info := { devid := 0x3650, cid := 0, uid := [], ucid := [] }

/-- An identity reporting the locked sentinel cid 0xFF and an unreadable
(non-matching) device id. -/
def lockedUnknownDev : device_info := { devid := 0, cid := 0xFF, uid := [], ucid := [] }

/-- Baseline input: a plain application write on a healthy device with an
empty image, a blank configuration, and a read-back that matches the erased
flash. -/
def baseIn : Inputs :=
  { read_aprom := false, write_aprom := true, write_ldrom := false,
    dump_config := false, lock_chip := false,
    aprom_open_ok := true, ldrom_open_ok := true,
    apromFile := [], ldromFile := [],
    icpInitResult := 0,
    dev1 := okDev, dev2 := okDev,
    confirmChar := 110,
    current_config := get_default_config,
    readback := List.replicate FLASH_SIZE 0xFF,
    fwrite_ok := true }

/-- Oversized loader input: the loader file is one byte longer than
`LDROM_MAX_SIZE`; the read-back matches what the run writes. -/
def c3_in : Inputs :=
  { baseIn with
      write_ldrom := true,
      ldromFile := List.replicate (LDROM_MAX_SIZE + 1) 0,
      readback := List.replicate (FLASH_SIZE - LDROM_MAX_SIZE) 0xFF
        ++ List.replicate LDROM_MAX_SIZE 0 }

/-- Mass-erase prompt input: an application write is requested, the device
id does not match and the device reports the locked sentinel, and the user
answers the prompt with n (0x6E), declining the mass erase. -/
def c4_in : Inputs :=
  { baseIn with
      dev1 := lockedUnknownDev, dev2 := lockedUnknownDev,
      confirmChar := 110 }

/-- Transport-initialization failure input: an application write is
requested but `N51ICP_init` returns nonzero. -/
def c9_in : Inputs :=
  { baseIn with icpInitResult := 1 }

/-- Lock-requested input: an application write with `-s`. -/
def c5w_in : Inputs :=
  { baseIn with lock_chip := true }

/-- Read-only input on a locked chip: `-r` with the configuration `LOCK`
bit reading 0. -/
def c8w_in : Inputs :=
  { baseIn with
      read_aprom := true, write_aprom := false,
      current_config := { LOCK := 0, CBS := 1, LDS := 7 } }

/-- Dump-config input used for the shutdown witness. -/
def c9w_in : Inputs :=
  { baseIn with write_aprom := false, dump_config := true }

/-- Loader input for the truncation witness: same oversized loader file. -/
def c3w_in : Inputs :=
  { baseIn with
      write_ldrom := true,
      ldromFile := List.replicate (LDROM_MAX_SIZE + 1) 0 }

/-! ## Helper lemmas -/

@[simp]
theorem planned_write_config_LOCK (L : Int) : (planned_write_config L).LOCK = 1 := rfl

@[simp]
theorem planned_write_config_CBS (L : Int) : (planned_write_config L).CBS = 0 := rfl

/-- For a loader length in [0, LDROM_MAX_SIZE] the kb count computed through
signed truncated division and the `uint8_t` store equals the natural-number
formula `(n - 1) / 1024 + 1` for positive n, and 1 at n = 0. -/
theorem chosen_ldrom_sz_kb_natCast (n : Nat) (h2 : n ≤ LDROM_MAX_SIZE) :
    chosen_ldrom_sz_kb (n : Int) =
      (if n = 0 then 1 else ((n - 1) / 1024 + 1 : Nat)) := by
  unfold chosen_ldrom_sz_kb
  rcases n with _ | m
  · decide
  · simp only [if_neg (Nat.succ_ne_zero m)]
    have hm : ((m + 1 : Nat) : Int) - 1 = (m : Int) := by push_cast; ring
    rw [hm, show ((m : Int)).tdiv 1024 = ((m / 1024 : Nat) : Int) from rfl]
    have hle : m ≤ 8191 := by
      have := h2; unfold LDROM_MAX_SIZE at this; omega
    omega

/-- Range of the kb count: for loader lengths in [0, LDROM_MAX_SIZE] it is
between 1 and 8. -/
theorem chosen_ldrom_sz_kb_range (n : Nat) (h2 : n ≤ LDROM_MAX_SIZE) :
    1 ≤ chosen_ldrom_sz_kb (n : Int) ∧ chosen_ldrom_sz_kb (n : Int) ≤ 8 := by
  rw [chosen_ldrom_sz_kb_natCast n h2]
  have h : n ≤ 8192 := h2
  rcases n with _ | m
  · simp
  · simp only [if_neg (Nat.succ_ne_zero m)]
    omega

/-- The planned loader byte size always lies in [0, LDROM_MAX_SIZE]. -/
theorem chosen_sz_range (i : Inputs) :
    0 ≤ chosen_sz i ∧ chosen_sz i ≤ (LDROM_MAX_SIZE : Int) := by
  unfold chosen_sz
  split
  · have h2 : ldrom_program_size i ≤ LDROM_MAX_SIZE := Nat.min_le_right _ _
    have := chosen_ldrom_sz_kb_range (ldrom_program_size i) h2
    unfold chosen_ldrom_sz
    constructor
    · nlinarith [this.1]
    · have : chosen_ldrom_sz_kb (ldrom_program_size i : Int) ≤ 8 := this.2
      unfold LDROM_MAX_SIZE
      push_cast
      nlinarith
  · simp [LDROM_MAX_SIZE]

/-! ## Claim theorems -/

/-- Claim C1: for every loader image length L in [1, LDROM_MAX_SIZE] the planned
loader region size `chosen_ldrom_sz` is the smallest multiple of 1024 that
is at least L (it is a multiple of 1024, at least L, and below L + 1024),
and the planned application capacity `FLASH_SIZE - chosen_ldrom_sz` plus
the loader region size equals `FLASH_SIZE`. -/
theorem C1_loader_size_plan (L : Nat) (h1 : 1 ≤ L) (h2 : L ≤ LDROM_MAX_SIZE) :
    (L : Int) ≤ chosen_ldrom_sz (L : Int) ∧
    chosen_ldrom_sz (L : Int) % 1024 = 0 ∧
    chosen_ldrom_sz (L : Int) < (L : Int) + 1024 ∧
    ((FLASH_SIZE : Int) - chosen_ldrom_sz (L : Int)) + chosen_ldrom_sz (L : Int)
      = (FLASH_SIZE : Int) := by
  unfold chosen_ldrom_sz
  rw [chosen_ldrom_sz_kb_natCast L h2]
  have h8192 : L ≤ 8192 := h2
  rcases L with _ | m
  · omega
  · simp only [if_neg (Nat.succ_ne_zero m)]
    refine ⟨?_, ?_, ?_, by ring⟩ <;> omega

/-- Witness for C1 at L = 1500: the plan reserves 2048 bytes. -/
theorem C1_loader_size_plan_witness :
    (1 ≤ 1500 ∧ 1500 ≤ LDROM_MAX_SIZE) ∧
    ((1500 : Int) ≤ chosen_ldrom_sz (1500 : Int) ∧
     chosen_ldrom_sz (1500 : Int) % 1024 = 0 ∧
     chosen_ldrom_sz (1500 : Int) < (1500 : Int) + 1024 ∧
     ((FLASH_SIZE : Int) - chosen_ldrom_sz (1500 : Int)) + chosen_ldrom_sz (1500 : Int)
       = (FLASH_SIZE : Int)) :=
  ⟨by constructor <;> decide, C1_loader_size_plan 1500 (by decide) (by decide)⟩

/-- Claim C2: for every loader image length L in [1, LDROM_MAX_SIZE] the planned
configuration starts from the all-ones blank default and encodes
`LDS = (7 - loaderSizeKb) mod 8` (the C `& 0x7`) with `loaderSizeKb` the
length rounded up to the next KiB, and `CBS = 0` (boot from LDROM);
the `LOCK` bit keeps its blank value 1. -/
theorem C2_planned_config (L : Nat) (h1 : 1 ≤ L) (h2 : L ≤ LDROM_MAX_SIZE) :
    chosen_ldrom_sz_kb (L : Int) = ((L + 1023) / 1024 : Nat) ∧
    (planned_write_config (L : Int)).LDS
      = ((7 - ((L + 1023) / 1024 : Nat) : Int) % 8).toNat ∧
    (planned_write_config (L : Int)).CBS = 0 ∧
    (planned_write_config (L : Int)).LOCK = get_default_config.LOCK ∧
    planned_write_config (L : Int) =
      { get_default_config with
          CBS := 0, LDS := (planned_write_config (L : Int)).LDS } := by
  have hkb : chosen_ldrom_sz_kb (L : Int) = ((L + 1023) / 1024 : Nat) := by
    rw [chosen_ldrom_sz_kb_natCast L h2]
    rcases L with _ | m
    · omega
    · simp only [if_neg (Nat.succ_ne_zero m)]
      have : m ≤ 8191 := by
        have := h2; unfold LDROM_MAX_SIZE at this; omega
      omega
  refine ⟨hkb, ?_, rfl, rfl, rfl⟩
  unfold planned_write_config planned_LDS
  rw [hkb]

/-- Witness for C2 at L = 2049: loaderSizeKb = 3, LDS = 4, CBS = 0. -/
theorem C2_planned_config_witness :
    (1 ≤ 2049 ∧ 2049 ≤ LDROM_MAX_SIZE) ∧
    (chosen_ldrom_sz_kb (2049 : Int) = ((2049 + 1023) / 1024 : Nat) ∧
     (planned_write_config (2049 : Int)).LDS
       = ((7 - ((2049 + 1023) / 1024 : Nat) : Int) % 8).toNat ∧
     (planned_write_config (2049 : Int)).CBS = 0 ∧
     (planned_write_config (2049 : Int)).LOCK = get_default_config.LOCK ∧
     planned_write_config (2049 : Int) =
       { get_default_config with
           CBS := 0, LDS := (planned_write_config (2049 : Int)).LDS }) :=
  ⟨by constructor <;> decide, C2_planned_config 2049 (by decide) (by decide)⟩

/-- Claim C10: for a supplied loader image of length 0 the C expression
`(0 - 1) / 1024` truncates toward zero to 0, so the planner still reserves
one KiB: `chosen_ldrom_sz_kb = 1`, `chosen_ldrom_sz = 1024`, the planned
`LDS` is 6 and boot-from-loader (`CBS = 0`) is selected. -/
theorem C10_zero_length_loader :
    ((0 : Int) - 1).tdiv 1024 = 0 ∧
    chosen_ldrom_sz_kb (0 : Int) = 1 ∧
    chosen_ldrom_sz (0 : Int) = 1024 ∧
    (planned_write_config (0 : Int)).LDS = 6 ∧
    (planned_write_config (0 : Int)).CBS = 0 := by
  refine ⟨by decide, by decide, by decide, by decide, rfl⟩

/-! ## Shutdown and lock-ordering helper lemmas -/

theorem endsWithShutdown_append (l m : List Event)
    (h : endsWithShutdown m = true) : endsWithShutdown (l ++ m) = true := by
  unfold endsWithShutdown at h ⊢
  rw [List.reverse_append]
  rcases hm : m.reverse with _ | ⟨a, _ | ⟨b, rest⟩⟩ <;> rw [hm] at h <;> simp_all

theorem run3_endsWithShutdown (i : Inputs) (pre : List Event) :
    endsWithShutdown (run3 i pre).1 = true := by
  unfold run3
  dsimp only
  split_ifs <;>
    simp [endsWithShutdown, List.reverse_append]

theorem run2_endsWithShutdown (i : Inputs) :
    endsWithShutdown (run2 i).1 = true := by
  unfold run2
  dsimp only
  split_ifs <;>
    first
    | apply run3_endsWithShutdown
    | simp [endsWithShutdown, List.reverse_append]

theorem run3_lock_spec (i : Inputs) (pre : List Event)
    (hpre : pre.any lockWriteB = false) :
    ((run3 i pre).1.any lockWriteB = true →
      verify_expected i = read_data_buf i
        ∧ lockAfterVerifyTail (run3 i pre).1 = true) ∧
    ((i.write_aprom = true ∨ i.write_ldrom = true) →
      verify_expected i ≠ read_data_buf i →
      (run3 i pre).2 = 1 ∧ Event.dumpConfig ∈ (run3 i pre).1
        ∧ (run3 i pre).1.any lockWriteB = false) := by
  unfold run3
  dsimp only
  split_ifs <;>
    simp_all [lockWriteB, lockAfterVerifyTail, List.reverse_append, List.any_append,
      planned_write_config, planned_LDS, get_default_config]

theorem run2_lock_spec (i : Inputs) :
    ((run2 i).1.any lockWriteB = true →
      verify_expected i = read_data_buf i
        ∧ lockAfterVerifyTail (run2 i).1 = true) ∧
    ((i.write_aprom = true ∨ i.write_ldrom = true) →
      Event.readFlash APROM_FLASH_ADDR (FLASH_SIZE : Int) ∈ (run2 i).1 →
      verify_expected i ≠ read_data_buf i →
      (run2 i).2 = 1 ∧ Event.dumpConfig ∈ (run2 i).1
        ∧ (run2 i).1.any lockWriteB = false) := by
  unfold run2
  dsimp only
  split_ifs <;>
    first
    | exact (fun h => ⟨h.1, fun hw _ hne => h.2 hw hne⟩)
        (run3_lock_spec i _ (by simp [lockWriteB]))
    | simp_all [lockWriteB, List.any_append, CFG_FLASH_ADDR, APROM_FLASH_ADDR,
        FLASH_SIZE, CFG_FLASH_LEN]

/-- Claim C5: in every run where locking was requested, a configuration write with
the lock bit asserted appears in the trace only when the full-flash compare
succeeded, and then only directly after the verify read (the trace ends
verify-read, lock-write, config dump, shutdown); when the compare finds a
mismatch in a write run, the run exits 1 with a diagnostic configuration
dump and no lock write is ever attempted. -/
theorem C5_lock_after_verify (i : Inputs) (hlock : i.lock_chip = true) :
    ((run i).1.any lockWriteB = true →
      verify_expected i = read_data_buf i
        ∧ lockAfterVerifyTail (run i).1 = true) ∧
    ((i.write_aprom = true ∨ i.write_ldrom = true) →
      Event.readFlash APROM_FLASH_ADDR (FLASH_SIZE : Int) ∈ (run i).1 →
      verify_expected i ≠ read_data_buf i →
      (run i).2 = 1 ∧ Event.dumpConfig ∈ (run i).1
        ∧ (run i).1.any lockWriteB = false) := by
  unfold run
  split_ifs <;> first
    | exact run2_lock_spec i
    | simp [lockWriteB]

/-- Witness for C5: a lock-requested application write run. -/
theorem C5_lock_after_verify_witness :
    c5w_in.lock_chip = true ∧
    (((run c5w_in).1.any lockWriteB = true →
      verify_expected c5w_in = read_data_buf c5w_in
        ∧ lockAfterVerifyTail (run c5w_in).1 = true) ∧
    ((c5w_in.write_aprom = true ∨ c5w_in.write_ldrom = true) →
      Event.readFlash APROM_FLASH_ADDR (FLASH_SIZE : Int) ∈ (run c5w_in).1 →
      verify_expected c5w_in ≠ read_data_buf c5w_in →
      (run c5w_in).2 = 1 ∧ Event.dumpConfig ∈ (run c5w_in).1
        ∧ (run c5w_in).1.any lockWriteB = false)) :=
  ⟨rfl, C5_lock_after_verify c5w_in rfl⟩

/-- Claim C9, amended: once the transport initialization has succeeded, every
exit path, success or failure, ends with `N51ICP_exit` and `N51PGM_deinit`
and reports a non-zero outcome on the failure paths; after the
unsupported-device or locked-device precondition violations no
flash-mutating transport call (mass erase or any write) appears in the
trace.  On a failed initialization the deinitialization calls are skipped
(see the counterexample). -/
theorem C9_amended_shutdown (i : Inputs)
    (h1 : ¬(i.read_aprom = true ∧ i.write_aprom = true))
    (h2 : ¬(i.read_aprom = false ∧ i.write_aprom = false ∧ i.dump_config = false))
    (h3 : ¬(i.dump_config = false ∧ (i.read_aprom = true ∨ i.write_aprom = true)
            ∧ i.aprom_open_ok = false))
    (h4 : ¬(i.dump_config = false ∧ i.write_ldrom = true ∧ i.ldrom_open_ok = false))
    (h5 : i.icpInitResult = 0) :
    endsWithShutdown (run i).1 = true ∧
    ((effective_devinfo i).devid ≠ N76E003_DEVID →
      ¬((i.write_ldrom = true ∨ i.write_aprom = true)
          ∧ (effective_devinfo i).cid = 0xFF) →
      (run i).2 = 1 ∧ (run i).1.any mutationB = false) ∧
    (i.current_config.LOCK = 0 → i.write_aprom = false → i.write_ldrom = false →
      (run i).2 = 1 ∧ (run i).1.any mutationB = false) := by
  have hrun : run i = run2 i := by
    unfold run
    rw [if_neg h1, if_neg h2, if_neg h3, if_neg h4, if_neg (by simp [h5])]
  rw [hrun]
  refine ⟨run2_endsWithShutdown i, ?_, ?_⟩
  · intro hne hnr
    unfold run2
    dsimp only
    rw [if_pos ⟨hne, hnr⟩]
    by_cases hc : i.dev1.cid = 0xFF <;>
      simp [hc, mutationB, List.any_append]
  · intro hlk hwa hwl
    unfold run2 effective_devinfo
    dsimp only
    by_cases hc : i.dev1.cid = 0xFF <;>
      simp only [hc, if_true, if_false, reduceIte] <;>
      split_ifs <;>
      simp_all [mutationB, List.any_append]

/-- Witness for the amended C9: a dump-config run on a healthy device ends
with the shutdown pair. -/
theorem C9_amended_shutdown_witness :
    (¬(c9w_in.read_aprom = true ∧ c9w_in.write_aprom = true) ∧
     ¬(c9w_in.read_aprom = false ∧ c9w_in.write_aprom = false
         ∧ c9w_in.dump_config = false) ∧
     ¬(c9w_in.dump_config = false ∧ (c9w_in.read_aprom = true ∨ c9w_in.write_aprom = true)
         ∧ c9w_in.aprom_open_ok = false) ∧
     ¬(c9w_in.dump_config = false ∧ c9w_in.write_ldrom = true
         ∧ c9w_in.ldrom_open_ok = false) ∧
     c9w_in.icpInitResult = 0) ∧
    (endsWithShutdown (run c9w_in).1 = true ∧
     ((effective_devinfo c9w_in).devid ≠ N76E003_DEVID →
       ¬((c9w_in.write_ldrom = true ∨ c9w_in.write_aprom = true)
           ∧ (effective_devinfo c9w_in).cid = 0xFF) →
       (run c9w_in).2 = 1 ∧ (run c9w_in).1.any mutationB = false) ∧
     (c9w_in.current_config.LOCK = 0 → c9w_in.write_aprom = false →
       c9w_in.write_ldrom = false →
       (run c9w_in).2 = 1 ∧ (run c9w_in).1.any mutationB = false)) :=
  ⟨⟨by decide, by decide, by decide, by decide, by decide⟩,
   C9_amended_shutdown c9w_in (by decide) (by decide) (by decide) (by decide) (by decide)⟩

/-- Counterexample to C9 as stated: when `N51ICP_init` fails, `main` jumps
to the `err` label (main.c line 298), which returns 1 without running
`N51ICP_exit` or `N51PGM_deinit`, so the transport is not shut down on the
transport-initialization-failure path. -/
theorem C9_counterexample_no_shutdown_on_bad_init :
    c9_in.icpInitResult ≠ 0 ∧
    (run c9_in).2 = 1 ∧
    Event.icpExit ∉ (run c9_in).1 ∧
    Event.pgmDeinit ∉ (run c9_in).1 ∧
    endsWithShutdown (run c9_in).1 = false := by
  refine ⟨by decide, ?_, ?_, ?_, ?_⟩ <;>
    simp [run, c9_in, baseIn, endsWithShutdown]

/-- Claim C8: on a device whose configuration `LOCK` bit reads 0 (locked) when
only a read was requested, the run fails with exit status 1, never issues
the full-flash read-back, and performs no flash-mutating call. -/
theorem C8_locked_no_dump (i : Inputs)
    (hr : i.read_aprom = true) (hw : i.write_aprom = false) (hl : i.write_ldrom = false)
    (hd : i.dump_config = false) (hopen : i.aprom_open_ok = true)
    (hinit : i.icpInitResult = 0)
    (hdev : (effective_devinfo i).devid = N76E003_DEVID)
    (hlock : i.current_config.LOCK = 0) :
    (run i).2 = 1 ∧
    Event.readFlash APROM_FLASH_ADDR (FLASH_SIZE : Int) ∉ (run i).1 ∧
    (run i).1.any mutationB = false := by
  have hdev2 := hdev
  unfold effective_devinfo at hdev2
  by_cases hc : i.dev1.cid = 0xFF <;>
    simp only [hc, if_true, if_false, reduceIte] at hdev2 <;>
    simp [run, run2, effective_devinfo, hr, hw, hl, hd, hopen, hinit, hdev2, hc, hlock,
      mutationB, APROM_FLASH_ADDR, CFG_FLASH_ADDR, FLASH_SIZE, CFG_FLASH_LEN]

/-- Witness for C8: a read-only run against a locked chip. -/
theorem C8_locked_no_dump_witness :
    (c8w_in.read_aprom = true ∧ c8w_in.write_aprom = false ∧ c8w_in.write_ldrom = false ∧
     c8w_in.dump_config = false ∧ c8w_in.aprom_open_ok = true ∧
     c8w_in.icpInitResult = 0 ∧
     (effective_devinfo c8w_in).devid = N76E003_DEVID ∧
     c8w_in.current_config.LOCK = 0) ∧
    ((run c8w_in).2 = 1 ∧
     Event.readFlash APROM_FLASH_ADDR (FLASH_SIZE : Int) ∉ (run c8w_in).1 ∧
     (run c8w_in).1.any mutationB = false) :=
  ⟨⟨rfl, rfl, rfl, rfl, rfl, rfl, by decide, rfl⟩,
   C8_locked_no_dump c8w_in rfl rfl rfl rfl rfl rfl (by decide) rfl⟩

/-- Claim C7: writing an application image with no loader image makes the expected
verification buffer equal the image padded with the 0xFF filler to
`FLASH_SIZE`, and in a run that reaches programming the exit status is 0
exactly when the full-flash read-back equals that buffer. -/
theorem C7_roundtrip (i : Inputs)
    (hr : i.read_aprom = false) (hw : i.write_aprom = true) (hl : i.write_ldrom = false)
    (hd : i.dump_config = false) (hopen : i.aprom_open_ok = true)
    (hinit : i.icpInitResult = 0)
    (hdev : (effective_devinfo i).devid = N76E003_DEVID)
    (hlen : i.apromFile.length ≤ FLASH_SIZE) :
    verify_expected i
      = i.apromFile ++ List.replicate (FLASH_SIZE - i.apromFile.length) 0xFF ∧
    ((run i).2 = 0 ↔ read_data_buf i = verify_expected i) := by
  have hch : chosen_sz i = 0 := by
    unfold chosen_sz
    simp [hl]
  have haps : aprom_program_size i = i.apromFile.length := by
    unfold aprom_program_size aprom_size
    rw [hch]
    simp [hlen]
  have hexp : verify_expected i
      = i.apromFile ++ List.replicate (FLASH_SIZE - i.apromFile.length) 0xFF := by
    unfold verify_expected write_data_buf
    rw [hch, haps]
    simp only [hw, if_true, reduceIte, Int.toNat_zero, Nat.sub_zero, List.take_zero,
      List.append_nil, List.take_length]
    rw [List.take_of_length_le]
    simp only [List.length_append, List.length_replicate]
    omega
  have key : (run i).2 = (if verify_expected i = read_data_buf i then (0 : Int) else 1) := by
    have hdev2 := hdev
    unfold effective_devinfo at hdev2
    by_cases hc : i.dev1.cid = 0xFF <;>
      simp only [hc, if_true, if_false, reduceIte] at hdev2 <;>
      simp [run, run2, run3, effective_devinfo, hr, hw, hl, hd, hopen, hinit,
        hdev2, hc] <;>
      split_ifs <;> simp
  refine ⟨hexp, ?_⟩
  rw [key]
  split_ifs with hv
  · simp [hv]
  · simp only [iff_false, (by decide : (1 : Int) ≠ 0), false_iff]
    exact fun h => hv h.symm

/-- Witness for C7: the empty application image on a healthy device. -/
theorem C7_roundtrip_witness :
    (baseIn.read_aprom = false ∧ baseIn.write_aprom = true ∧ baseIn.write_ldrom = false ∧
     baseIn.dump_config = false ∧ baseIn.aprom_open_ok = true ∧
     baseIn.icpInitResult = 0 ∧
     (effective_devinfo baseIn).devid = N76E003_DEVID ∧
     baseIn.apromFile.length ≤ FLASH_SIZE) ∧
    (verify_expected baseIn
       = baseIn.apromFile ++ List.replicate (FLASH_SIZE - baseIn.apromFile.length) 0xFF ∧
     ((run baseIn).2 = 0 ↔ read_data_buf baseIn = verify_expected baseIn)) :=
  ⟨⟨rfl, rfl, rfl, rfl, rfl, rfl, by decide, by decide⟩,
   C7_roundtrip baseIn rfl rfl rfl rfl rfl rfl (by decide) (by decide)⟩

/-- Claim C6: in every run, a transport write at the application base address 0
carries exactly the first `aprom_program_size` bytes of the supplied image,
`aprom_program_size` is the lesser of the image length and the application
capacity `FLASH_SIZE - chosen_ldrom_sz`, and the written bytes end at or
before the start of the planned loader region, so the loader region is
never overwritten by application data. -/
theorem C6_aprom_write (i : Inputs)
    (hr : i.read_aprom = false) (hw : i.write_aprom = true)
    (hd : i.dump_config = false) (hopen : i.aprom_open_ok = true)
    (hldopen : i.ldrom_open_ok = true)
    (hinit : i.icpInitResult = 0)
    (hdev : (effective_devinfo i).devid = N76E003_DEVID) :
    Event.writeFlash APROM_FLASH_ADDR (i.apromFile.take (aprom_program_size i))
      ∈ (run i).1 ∧
    APROM_FLASH_ADDR = 0 ∧
    (aprom_program_size i : Int)
      = min (i.apromFile.length : Int) ((FLASH_SIZE : Int) - chosen_sz i) ∧
    (aprom_program_size i : Int) + chosen_sz i ≤ (FLASH_SIZE : Int) := by
  have hrange := chosen_sz_range i
  have hmin : (aprom_program_size i : Int)
      = min (i.apromFile.length : Int) ((FLASH_SIZE : Int) - chosen_sz i) := by
    unfold aprom_program_size aprom_size
    have h0 : (0 : Int) ≤ (FLASH_SIZE : Int) - chosen_sz i := by
      unfold FLASH_SIZE LDROM_MAX_SIZE at *
      omega
    push_cast [Int.toNat_of_nonneg h0]
    omega
  refine ⟨?_, rfl, hmin, ?_⟩
  · have hdev2 := hdev
    unfold effective_devinfo at hdev2
    by_cases hc : i.dev1.cid = 0xFF <;>
      simp only [hc, if_true, if_false, reduceIte] at hdev2 <;>
      simp [run, run2, run3, effective_devinfo, hr, hw, hd, hopen, hldopen, hinit,
        hdev2, hc] <;>
      split_ifs <;>
      simp
  · have h8 : chosen_sz i ≤ (LDROM_MAX_SIZE : Int) := hrange.2
    have := hrange.1
    rw [hmin]
    unfold FLASH_SIZE LDROM_MAX_SIZE at *
    omega

/-- Witness for C6: the empty application image on a healthy device. -/
theorem C6_aprom_write_witness :
    (baseIn.read_aprom = false ∧ baseIn.write_aprom = true ∧
     baseIn.dump_config = false ∧ baseIn.aprom_open_ok = true ∧
     baseIn.ldrom_open_ok = true ∧ baseIn.icpInitResult = 0 ∧
     (effective_devinfo baseIn).devid = N76E003_DEVID) ∧
    (Event.writeFlash APROM_FLASH_ADDR (baseIn.apromFile.take (aprom_program_size baseIn))
       ∈ (run baseIn).1 ∧
     APROM_FLASH_ADDR = 0 ∧
     (aprom_program_size baseIn : Int)
       = min (baseIn.apromFile.length : Int) ((FLASH_SIZE : Int) - chosen_sz baseIn) ∧
     (aprom_program_size baseIn : Int) + chosen_sz baseIn ≤ (FLASH_SIZE : Int)) :=
  ⟨⟨rfl, rfl, rfl, rfl, rfl, rfl, by decide⟩,
   C6_aprom_write baseIn rfl rfl rfl rfl rfl rfl (by decide)⟩

/-- Claim C4, refuted by the code (code bug): with an application write requested, a non-matching
device id and the locked sentinel cid 0xFF, the run prompts for mass-erase
confirmation, the user answers n (not y or Y, so the confirmation message
is not printed), and yet `N51ICP_mass_erase` is still invoked: the answer
at main.c lines 199-201 only gates a log message, and nothing stops the
erase at line 220, contradicting the (y/N) contract stated by the prompt. -/
theorem C4_mass_erase_without_confirmation :
    c4_in.confirmChar ≠ 121 ∧ c4_in.confirmChar ≠ 89 ∧
    (effective_devinfo c4_in).devid ≠ N76E003_DEVID ∧
    Event.promptMassErase ∈ (run c4_in).1 ∧
    Event.msgAttemptErase ∉ (run c4_in).1 ∧
    Event.massErase ∈ (run c4_in).1 := by
  refine ⟨by decide, by decide, by decide, ?_, ?_, ?_⟩ <;>
    simp [run, run2, run3, effective_devinfo, c4_in, baseIn, okDev, lockedUnknownDev,
      N76E003_DEVID, get_default_config, verify_expected, read_data_buf,
      write_data_buf, ldrom_data_buf, chosen_sz, aprom_program_size, aprom_size]

/-- Counterexample to C3 as stated: a loader file of `LDROM_MAX_SIZE + 1`
bytes is not rejected; `fread` silently truncates it to `LDROM_MAX_SIZE`
bytes, the run programs the truncated loader at the top of flash and
finishes with exit status 0. -/
theorem C3_counterexample_oversized_not_rejected :
    c3_in.ldromFile.length = LDROM_MAX_SIZE + 1 ∧
    (run c3_in).2 = 0 ∧
    Event.writeFlash ((FLASH_SIZE : Int) - (LDROM_MAX_SIZE : Int))
      (List.replicate LDROM_MAX_SIZE 0) ∈ (run c3_in).1 := by
  simp [-List.reduceReplicate, run, run2, run3, effective_devinfo, c3_in, baseIn,
    okDev, N76E003_DEVID, get_default_config, verify_expected, read_data_buf,
    write_data_buf, ldrom_data_buf, chosen_sz, chosen_ldrom_sz, chosen_ldrom_sz_kb,
    aprom_program_size, aprom_size, ldrom_program_size, planned_write_config,
    planned_LDS, LDROM_MAX_SIZE, FLASH_SIZE, List.take_of_length_le,
    (by decide : Int.tdiv 8191 1024 = 7)]

/-- Claim C3, amended: at the boundary, a loader image of exactly
`LDROM_MAX_SIZE` bytes plans the maximum `loaderSizeKb` of 8; a longer
image is not rejected but truncated by `fread` to its first
`LDROM_MAX_SIZE` bytes, which likewise plan the maximum loader region. -/
theorem C3_amended_oversized_truncated (i : Inputs)
    (hl : i.write_ldrom = true)
    (hgt : LDROM_MAX_SIZE < i.ldromFile.length) :
    ldrom_program_size i = LDROM_MAX_SIZE ∧
    chosen_ldrom_sz_kb (ldrom_program_size i : Int) = 8 ∧
    chosen_sz i = (LDROM_MAX_SIZE : Int) ∧
    chosen_ldrom_sz_kb ((LDROM_MAX_SIZE : Nat) : Int) = 8 := by
  have h1 : ldrom_program_size i = LDROM_MAX_SIZE := by
    unfold ldrom_program_size
    omega
  have h2 : chosen_ldrom_sz_kb ((LDROM_MAX_SIZE : Nat) : Int) = 8 := by
    unfold LDROM_MAX_SIZE chosen_ldrom_sz_kb
    decide
  refine ⟨h1, ?_, ?_, h2⟩
  · rw [h1]
    exact h2
  · unfold chosen_sz
    rw [if_pos hl, h1]
    unfold chosen_ldrom_sz
    rw [h2]
    unfold LDROM_MAX_SIZE
    decide

/-- Witness for the amended C3: the loader image one byte beyond the
maximum is truncated to the maximum and plans the 8 KiB loader region. -/
theorem C3_amended_oversized_truncated_witness :
    (c3w_in.write_ldrom = true ∧ LDROM_MAX_SIZE < c3w_in.ldromFile.length) ∧
    (ldrom_program_size c3w_in = LDROM_MAX_SIZE ∧
     chosen_ldrom_sz_kb (ldrom_program_size c3w_in : Int) = 8 ∧
     chosen_sz c3w_in = (LDROM_MAX_SIZE : Int) ∧
     chosen_ldrom_sz_kb ((LDROM_MAX_SIZE : Nat) : Int) = 8) :=
  ⟨⟨rfl, by simp [-List.reduceReplicate, c3w_in, baseIn, LDROM_MAX_SIZE]⟩,
   C3_amended_oversized_truncated c3w_in rfl
     (by simp [-List.reduceReplicate, c3w_in, baseIn, LDROM_MAX_SIZE])⟩
